import Mathlib

/-!
Shallow embedding of the Lead Valuation & Prioritization Engine of
`flipfinder_pro.py`: the AI priority scorer (`calculate_ai_priority_score`),
the ARV predictor (`predict_arv`), and the standalone quick deal analyzer
embedded in `main` (the spec's `estimateDealEconomics`).

Numbers are modelled as exact rationals (`ℚ`); Python's `int(...)`
conversion is modelled by `pyTrunc` (truncation toward zero).  The
non-deterministic ambient inputs (`datetime.now().year`,
`datetime.now().month`) are threaded as explicit parameters; the random
confidence draw of `predict_arv` is outside the deterministic core and is
not part of the embedded result.  A Python `ZeroDivisionError` is modelled
by an `Option` result (`none` = the call raises).
-/

/-- Python `int(x)` on a rational: truncation toward zero. -/
def pyTrunc (q : ℚ) : ℤ := if 0 ≤ q then ⌊q⌋ else ⌈q⌉

/-- One scoring factor, as appended to the `factors` list by the scorer
(`{"name": ..., "points": ..., "category": ...}`). -/
structure Factor where
  name : String
  points : ℤ
  category : String
deriving Repr, DecidableEq

/-- The mutable accumulation state of `calculate_ai_priority_score`:
the running `score`, the `factors` list, and the `ai_insights` list. -/
structure ScoreState where
  score : ℤ
  factors : List Factor
  insights : List String
deriving Repr, DecidableEq

/-- The `financials` sub-dictionary of the scorer's result. -/
structure FinancialAnalysis where
  max_offer : ℚ
  estimated_repairs : ℚ
  gap_percent : ℚ
  roi : ℚ
  net_profit : ℚ
  total_investment : ℚ
deriving Repr, DecidableEq

/-- The result dictionary of `calculate_ai_priority_score`. -/
structure ScoreResult where
  score : ℤ
  tier : String
  action : String
  factors : List Factor
  ai_insights : List String
  ai_recommendation : String
  financials : FinancialAnalysis
deriving Repr, DecidableEq

/-- The property record handed to the engine.  Fields read through
`property_data.get(key, default)` are `Option`s (`none` = key absent);
the owner-contact fields are read for truthiness only and are `Bool`s;
`distress_signals` is the tag list (the comma-joined-string form of the
Python code is serialization plumbing outside the engine). -/
structure PropertyData where
  list_price : Option ℚ := none
  arv : Option ℚ := none
  sqft : Option ℚ := none
  beds : Option ℚ := none
  baths : Option ℚ := none
  year_built : Option ℤ := none
  equity_percent : Option ℚ := none
  ownership_years : Option ℚ := none
  days_on_market : Option ℚ := none
  price_reductions : Option ℚ := none
  distress_signals : List String := []
  owner_phone : Bool := false
  owner_email : Bool := false
  owner_mailing : Bool := false
deriving Repr, DecidableEq

/-- One rule of a scoring block: fire condition, factor name, points,
and the insight strings appended when the rule fires. -/
abbrev Rule := Bool × String × ℤ × List String

/-- Apply an `if/elif` block of rules with a fixed category: the first
rule whose condition holds adds its points to the score, appends its
factor and its insights; later rules of the block are then skipped.
A single independent `if` is a one-rule block. -/
def applyChain (cat : String) : List Rule → ScoreState → ScoreState
  | [], st => st
  | (c, n, pts, ins) :: rest, st =>
      if c then
        { score := st.score + pts
          factors := st.factors ++ [⟨n, pts, cat⟩]
          insights := st.insights ++ ins }
      else applyChain cat rest st

/-- Points contributed by a rule block: those of the first firing rule. -/
def firedPoints : List Rule → ℤ
  | [] => 0
  | (c, _, pts, _) :: rest => if c then pts else firedPoints rest

/-- Factor list contributed by a rule block (empty or a singleton). -/
def firedFactors (cat : String) : List Rule → List Factor
  | [] => []
  | (c, n, pts, _) :: rest =>
      if c then [⟨n, pts, cat⟩] else firedFactors cat rest

/-- Sum of the point contributions of a factor list. -/
def sumPoints (l : List Factor) : ℤ := (l.map Factor.points).sum

/-- Sum of the point contributions of the factors carrying category `c`. -/
def catPoints (c : String) (l : List Factor) : ℤ :=
  sumPoints (l.filter (fun f => f.category = c))

theorem applyChain_score (cat : String) (rs : List Rule) (st : ScoreState) :
    (applyChain cat rs st).score = st.score + firedPoints rs := by
  induction rs with
  | nil => simp [applyChain, firedPoints]
  | cons r rest ih =>
      obtain ⟨c, n, pts, ins⟩ := r
      by_cases hc : c <;> simp [applyChain, firedPoints, hc, ih]

theorem applyChain_factors (cat : String) (rs : List Rule) (st : ScoreState) :
    (applyChain cat rs st).factors = st.factors ++ firedFactors cat rs := by
  induction rs with
  | nil => simp [applyChain, firedFactors]
  | cons r rest ih =>
      obtain ⟨c, n, pts, ins⟩ := r
      by_cases hc : c <;> simp [applyChain, firedFactors, hc, ih]

theorem sumPoints_append (l₁ l₂ : List Factor) :
    sumPoints (l₁ ++ l₂) = sumPoints l₁ + sumPoints l₂ := by
  simp [sumPoints]

theorem sumPoints_firedFactors (cat : String) (rs : List Rule) :
    sumPoints (firedFactors cat rs) = firedPoints rs := by
  induction rs with
  | nil => simp [firedFactors, firedPoints, sumPoints]
  | cons r rest ih =>
      obtain ⟨c, n, pts, ins⟩ := r
      by_cases hc : c
      · simp [firedFactors, firedPoints, hc, sumPoints]
      · simpa [firedFactors, firedPoints, hc] using ih

theorem catPoints_append (c : String) (l₁ l₂ : List Factor) :
    catPoints c (l₁ ++ l₂) = catPoints c l₁ + catPoints c l₂ := by
  simp [catPoints, sumPoints, List.filter_append]

theorem catPoints_firedFactors (c cat : String) (rs : List Rule) :
    catPoints c (firedFactors cat rs) =
      if c = cat then firedPoints rs else 0 := by
  induction rs with
  | nil => simp [firedFactors, firedPoints, catPoints, sumPoints]
  | cons r rest ih =>
      obtain ⟨cond, n, pts, ins⟩ := r
      by_cases hc : cond
      · by_cases hcat : cat = c
        · simp [firedFactors, firedPoints, catPoints, sumPoints, hc, hcat]
        · simp [firedFactors, firedPoints, catPoints, sumPoints, hc, hcat,
            Ne.symm hcat]
      · simpa [firedFactors, firedPoints, hc] using ih

theorem firedFactors_points_pos (cat : String) (rs : List Rule)
    (h : ∀ r ∈ rs, 0 < r.2.2.1) :
    ∀ f ∈ firedFactors cat rs, 0 < f.points := by
  induction rs with
  | nil => simp [firedFactors]
  | cons r rest ih =>
      obtain ⟨c, n, pts, ins⟩ := r
      by_cases hc : c
      · intro f hf
        simp [firedFactors, hc] at hf
        subst hf
        have := h (c, n, pts, ins) (by simp)
        simpa using this
      · intro f hf
        simp only [firedFactors, hc, if_neg (by simp [hc] : ¬ c = true)] at hf
        exact ih (fun r hr => h r (by simp [hr])) f hf

/-- The `arv` value used by the scorer:
`property_data.get('arv', 0) or int(list_price * 1.2)` — a missing key or
a (falsy) zero value falls back to `int(list_price * 1.2)`. -/
def effectiveArv (p : PropertyData) : ℚ :=
  let list_price := p.list_price.getD 0
  let a0 := p.arv.getD 0
  if a0 = 0 then ((pyTrunc (list_price * (6 / 5)) : ℤ) : ℚ) else a0

/-- `age = current_year - year_built if year_built > 1800 else 50`. -/
def propertyAge (p : PropertyData) (current_year : ℤ) : ℤ :=
  let year_built := p.year_built.getD 1970
  if 1800 < year_built then current_year - year_built else 50

/-- Repair budget per square foot, selected by age bracket. -/
def repairPerSqft (age : ℤ) : ℚ :=
  if 50 < age then 65 else if 30 < age then 45 else if 15 < age then 30 else 20

/-- The repair-estimate insight string for an age bracket. -/
def repairInsight (age : ℤ) : String :=
  if 50 < age then "🔧 Older home - budget for major systems (roof, HVAC, plumbing)"
  else if 30 < age then "🔧 Medium-age home - likely needs kitchen/bath updates"
  else if 15 < age then "✅ Newer construction - mostly cosmetic updates"
  else "✅ Very new - minimal repairs expected"

/-- `estimated_repairs = sqft * repair_per_sqft` (sqft defaults to 1500). -/
def estimatedRepairs (p : PropertyData) (current_year : ℤ) : ℚ :=
  p.sqft.getD 1500 * repairPerSqft (propertyAge p current_year)

/-- The financial feasibility block of `calculate_ai_priority_score`
(lines 505–513 of the source): 70%-rule max offer, price gap, gap
percentage, total investment, net profit and ROI, with the two division
guards (`arv > 0`, `total_investment > 0`). -/
def financials_of (p : PropertyData) (current_year : ℤ) : FinancialAnalysis :=
  let list_price := p.list_price.getD 0
  let arv := effectiveArv p
  let estimated_repairs := estimatedRepairs p current_year
  let max_offer := arv * (7 / 10) - estimated_repairs
  let gap := max_offer - list_price
  let gap_percent := if 0 < arv then gap / arv * 100 else 0
  let total_investment := list_price + estimated_repairs + arv * (13 / 100)
  let net_profit := arv - total_investment
  let roi := if 0 < total_investment then net_profit / total_investment * 100 else 0
  ⟨max_offer, estimated_repairs, gap_percent, roi, net_profit, total_investment⟩

/-- `calculate_ai_priority_score`: the AI-enhanced priority scorer.
`current_year` and `current_month` stand for `datetime.now().year` /
`.month`, threaded explicitly. -/
def calculate_ai_priority_score (p : PropertyData)
    (current_year current_month : ℤ) : ScoreResult :=
  let fin := financials_of p current_year
  let gap_percent := fin.gap_percent
  let roi := fin.roi
  let equity_percent := p.equity_percent.getD 0
  let ownership_years := p.ownership_years.getD 5
  let days_on_market := p.days_on_market.getD 0
  let price_reductions := p.price_reductions.getD 0
  let sigs := p.distress_signals
  let signal_count : ℤ := ((sigs.filter (fun s => s ≠ "")).length : ℤ)
  let st : ScoreState := ⟨0, [], [repairInsight (propertyAge p current_year)]⟩
  -- PROFIT POTENTIAL (0-40)
  let st := applyChain "profit"
    [(decide (15 ≤ gap_percent), "🎯 Excellent Price Gap (15%+)", 25,
        ["💰 SLAM DUNK - Priced significantly below max offer!"]),
     (decide (10 ≤ gap_percent), "Great Price Gap (10%+)", 20,
        ["💰 Strong profit margin available"]),
     (decide (5 ≤ gap_percent), "Good Price Gap (5%+)", 15, []),
     (decide (0 ≤ gap_percent), "At Max Offer", 10, []),
     (decide (-10 ≤ gap_percent), "Negotiable", 5,
        ["⚠️ Needs 10%+ discount to make numbers work"])] st
  let st := applyChain "profit"
    [(decide (30 ≤ roi), "🚀 Excellent ROI (30%+)", 15, []),
     (decide (20 ≤ roi), "Strong ROI (20%+)", 12, []),
     (decide (15 ≤ roi), "Good ROI (15%+)", 8, []),
     (decide (10 ≤ roi), "Acceptable ROI (10%+)", 5, [])] st
  -- SELLER MOTIVATION (0-35)
  let st := applyChain "motivation"
    [(decide ("Foreclosure" ∈ sigs), "🚨 Active Foreclosure", 15,
        ["🔥 URGENT - Facing sale deadline!"])] st
  let st := applyChain "motivation"
    [(decide ("Pre-Foreclosure" ∈ sigs), "⚠️ Pre-Foreclosure", 12,
        ["Owner in financial distress - needs solution fast"])] st
  let st := applyChain "motivation"
    [(decide ("Probate/Estate" ∈ sigs), "📜 Inherited/Estate", 12,
        ["Emotional sale - heirs often want quick resolution"])] st
  let st := applyChain "motivation"
    [(decide ("Tax Lien" ∈ sigs), "💸 Tax Lien", 10, [])] st
  let st := applyChain "motivation"
    [(decide ("Divorce" ∈ sigs), "💔 Divorce", 10,
        ["Divorce situation - both parties often motivated to sell"])] st
  let st := applyChain "motivation"
    [(decide ("Absentee Owner" ∈ sigs), "📍 Absentee Owner", 6,
        ["Out-of-area owner - management burden"])] st
  let st := applyChain "motivation"
    [(decide ("Vacant" ∈ sigs), "🏚️ Vacant Property", 8,
        ["Vacant = carrying costs + liability for owner"])] st
  let st := applyChain "motivation"
    [(decide ("Tired Landlord" ∈ sigs), "😫 Tired Landlord", 8,
        ["Burnt out on property management"])] st
  let st := applyChain "motivation"
    [(decide ("Code Violations" ∈ sigs), "⚠️ Code Violations", 7,
        ["City pressure to fix or sell"])] st
  let st := applyChain "motivation"
    [(decide (15 ≤ ownership_years), "⏰ Long Ownership (15+ yrs)", 5, [])] st
  let st := applyChain "motivation"
    [(decide (70 ≤ equity_percent), "💎 High Equity (70%+)", 6,
        ["High equity = more negotiation flexibility"]),
     (decide (50 ≤ equity_percent), "Good Equity (50%+)", 4, [])] st
  let st := applyChain "motivation"
    [(decide (95 ≤ equity_percent), "🆓 Free & Clear", 5,
        ["No lender approval needed - faster closing!"])] st
  let st := applyChain "motivation"
    [(decide (5 ≤ signal_count), "🔥 5+ Distress Signals", 8,
        ["MULTIPLE MOTIVATION SIGNALS - High priority!"]),
     (decide (3 ≤ signal_count), "Multiple Signals", 5, [])] st
  -- URGENCY (0-15)
  let st := applyChain "urgency"
    [(decide (90 ≤ days_on_market), "📅 Stale Listing (90+ days)", 8,
        ["On market 90+ days - seller getting anxious"]),
     (decide (60 ≤ days_on_market), "Getting Stale (60+ days)", 5, [])] st
  let st := applyChain "urgency"
    [(decide (2 ≤ price_reductions), "📉 Multiple Price Drops", 8,
        ["Multiple price reductions = motivated seller"]),
     (decide (1 ≤ price_reductions), "Price Reduced", 5, [])] st
  let st := applyChain "urgency"
    [(decide (current_month ∈ ([11, 12, 1, 2] : List ℤ)), "❄️ Winter Season", 3,
        ["Winter in Michigan = motivated sellers"])] st
  -- CONTACT (0-10)
  let st := applyChain "contact"
    [(p.owner_phone, "📞 Phone Available", 5, [])] st
  let st := applyChain "contact"
    [(p.owner_email, "📧 Email Available", 3, [])] st
  let st := applyChain "contact"
    [(p.owner_mailing, "📬 Mailing Address", 2, [])] st
  -- Determine tier
  let score := min 100 st.score
  let tier :=
    if 75 ≤ score then "HOT"
    else if 55 ≤ score then "WARM"
    else if 35 ≤ score then "NURTURE"
    else "MONITOR"
  let action :=
    if 75 ≤ score then "🔥 CALL TODAY - Drop everything!"
    else if 55 ≤ score then "🌡️ Contact within 48 hours"
    else if 35 ≤ score then "💧 Add to drip campaign"
    else "👀 Watch for price drops"
  let ai_recommendation :=
    if 75 ≤ score ∧ 20 ≤ roi then "🎯 STRONG BUY - All signals align for profit"
    else if 55 ≤ score ∧ 15 ≤ roi then "✅ GOOD OPPORTUNITY - Worth pursuing"
    else if 35 ≤ score then "⚠️ NEEDS WORK - Negotiate hard or wait for price drop"
    else "❌ PASS - Numbers don't work at current price"
  ⟨score, tier, action, st.factors, st.insights, ai_recommendation, fin⟩

/-- The `factors` breakdown of an ARV prediction. -/
structure ArvFactors where
  base_value : ℤ
  bed_adjustment : ℚ
  bath_adjustment : ℚ
  age_multiplier : ℚ
  market_factor : ℚ
deriving Repr, DecidableEq

/-- The result of `predict_arv` (the random `confidence` draw is ambient
non-determinism outside the deterministic core and is not modelled). -/
structure ArvPrediction where
  predicted_arv : ℤ
  low_estimate : ℤ
  high_estimate : ℤ
  price_per_sqft : ℤ
  appreciation_rate : ℚ
  factors : ArvFactors
deriving Repr, DecidableEq

/-- The `MICHIGAN_CITIES` market table, as (median price, appreciation %)
per city key (the geocoordinates of the table are unused by the engine). -/
def MICHIGAN_CITIES : String → Option (ℚ × ℚ)
  | "Detroit" => some (85000, 85 / 10)
  | "Grand Rapids" => some (285000, 123 / 10)
  | "Warren" => some (165000, 92 / 10)
  | "Sterling Heights" => some (235000, 78 / 10)
  | "Ann Arbor" => some (425000, 65 / 10)
  | "Lansing" => some (145000, 112 / 10)
  | "Flint" => some (55000, 158 / 10)
  | "Dearborn" => some (175000, 89 / 10)
  | "Livonia" => some (265000, 72 / 10)
  | "Troy" => some (385000, 58 / 10)
  | "Westland" => some (155000, 105 / 10)
  | "Farmington Hills" => some (325000, 69 / 10)
  | "Kalamazoo" => some (175000, 98 / 10)
  | "Wyoming" => some (245000, 115 / 10)
  | "Southfield" => some (125000, 128 / 10)
  | "Pontiac" => some (95000, 142 / 10)
  | "Taylor" => some (125000, 95 / 10)
  | "Royal Oak" => some (315000, 75 / 10)
  | "Novi" => some (445000, 52 / 10)
  | "Saginaw" => some (45000, 185 / 10)
  | _ => none

/-- `MICHIGAN_CITIES.get(city, {'median_price': 150000, 'appreciation': 8.0})`. -/
def cityData (city : String) : ℚ × ℚ := (MICHIGAN_CITIES city).getD (150000, 8)

/-- `predict_arv`: market-comparable ARV prediction.  Returns `none`
exactly when the Python code raises `ZeroDivisionError`, i.e. when the
effective square footage is 0 and `int(predicted_arv / sqft)` divides by
zero while the result dictionary is built. -/
def predict_arv (p : PropertyData) (city : String)
    (current_year : ℤ) : Option ArvPrediction :=
  let cd := cityData city
  let sqft := p.sqft.getD 1500
  let beds := p.beds.getD 3
  let baths := p.baths.getD 2
  let year_built := p.year_built.getD 1970
  let price_per_sqft := cd.1 / 1500
  let base_arv := sqft * price_per_sqft
  let bed_adjustment := (beds - 3) * 10000
  let bath_adjustment := max 0 (baths - 3 / 2) * 7500
  let age := current_year - year_built
  let age_multiplier : ℚ :=
    if age ≤ 10 then 23 / 20
    else if age ≤ 25 then 21 / 20
    else if age ≤ 50 then 1
    else 23 / 25
  let appreciation_factor := 1 + cd.2 / 100
  let predicted_arv :=
    (base_arv + bed_adjustment + bath_adjustment) * age_multiplier * appreciation_factor
  let low_arv := pyTrunc (predicted_arv * (9 / 10))
  let high_arv := pyTrunc (predicted_arv * (11 / 10))
  if sqft = 0 then none
  else some
    { predicted_arv := pyTrunc predicted_arv
      low_estimate := low_arv
      high_estimate := high_arv
      price_per_sqft := pyTrunc (predicted_arv / sqft)
      appreciation_rate := cd.2
      factors :=
        { base_value := pyTrunc base_arv
          bed_adjustment := bed_adjustment
          bath_adjustment := bath_adjustment
          age_multiplier := age_multiplier
          market_factor := appreciation_factor } }

/-- The output of the quick deal analyzer of `main` (the spec's
`estimateDealEconomics`), including the verdict string displayed. -/
structure DealAnalysis where
  holding_costs : ℚ
  selling_costs : ℚ
  total_investment : ℚ
  net_profit : ℚ
  roi : ℚ
  max_offer : ℚ
  verdict : String
deriving Repr, DecidableEq

/-- The quick deal analyzer computation (source lines 2120–2147):
holding = 1% of ARV per month, selling = 9% of ARV, ROI guarded on a
non-positive total investment, 70%-rule max offer, and the four-way
verdict. -/
def estimate_deal_economics (purchase_price arv repairs holding_months : ℚ) :
    DealAnalysis :=
  let holding_costs := arv * (1 / 100) * holding_months
  let selling_costs := arv * (9 / 100)
  let total_investment := purchase_price + repairs + holding_costs + selling_costs
  let net_profit := arv - total_investment
  let roi := if 0 < total_investment then net_profit / total_investment * 100 else 0
  let max_offer := arv * (7 / 10) - repairs
  let verdict :=
    if 20 ≤ roi ∧ 20000 ≤ net_profit then "✅ GOOD DEAL - Strong returns!"
    else if 15 ≤ roi ∧ 15000 ≤ net_profit then "👍 DECENT DEAL - Acceptable returns"
    else if 10 ≤ roi then "⚠️ MARGINAL - Consider negotiating"
    else "❌ PASS - Numbers don't work"
  ⟨holding_costs, selling_costs, total_investment, net_profit, roi, max_offer, verdict⟩

/-- Points of the gap-percent bucket of the profit block. -/
def gapPoints (gap_percent : ℚ) : ℤ :=
  if 15 ≤ gap_percent then 25
  else if 10 ≤ gap_percent then 20
  else if 5 ≤ gap_percent then 15
  else if 0 ≤ gap_percent then 10
  else if -10 ≤ gap_percent then 5
  else 0

/-- Points of the ROI bucket of the profit block. -/
def roiPoints (roi : ℚ) : ℤ :=
  if 30 ≤ roi then 15
  else if 20 ≤ roi then 12
  else if 15 ≤ roi then 8
  else if 10 ≤ roi then 5
  else 0

/-- Total seller-motivation points awarded by the scorer's motivation
block, as a closed formula over the signal tags, ownership years and
equity percentage. -/
def motivationPoints (sigs : List String) (ownership_years equity_percent : ℚ) : ℤ :=
  (if "Foreclosure" ∈ sigs then 15 else 0) +
  (if "Pre-Foreclosure" ∈ sigs then 12 else 0) +
  (if "Probate/Estate" ∈ sigs then 12 else 0) +
  (if "Tax Lien" ∈ sigs then 10 else 0) +
  (if "Divorce" ∈ sigs then 10 else 0) +
  (if "Absentee Owner" ∈ sigs then 6 else 0) +
  (if "Vacant" ∈ sigs then 8 else 0) +
  (if "Tired Landlord" ∈ sigs then 8 else 0) +
  (if "Code Violations" ∈ sigs then 7 else 0) +
  (if 15 ≤ ownership_years then 5 else 0) +
  (if 70 ≤ equity_percent then 6 else if 50 ≤ equity_percent then 4 else 0) +
  (if 95 ≤ equity_percent then 5 else 0) +
  (if 5 ≤ ((sigs.filter (fun s => s ≠ "")).length : ℤ) then 8
   else if 3 ≤ ((sigs.filter (fun s => s ≠ "")).length : ℤ) then 5 else 0)

/-- Total urgency points (days on market, price reductions, winter month). -/
def urgencyPoints (days_on_market price_reductions : ℚ) (current_month : ℤ) : ℤ :=
  (if 90 ≤ days_on_market then 8 else if 60 ≤ days_on_market then 5 else 0) +
  (if 2 ≤ price_reductions then 8 else if 1 ≤ price_reductions then 5 else 0) +
  (if current_month ∈ ([11, 12, 1, 2] : List ℤ) then 3 else 0)

/-- Total contactability points. -/
def contactPoints (p : PropertyData) : ℤ :=
  (if p.owner_phone then 5 else 0) +
  (if p.owner_email then 3 else 0) +
  (if p.owner_mailing then 2 else 0)

/-- Tier from the clamped total score, per the documented thresholds. -/
def tierOf (score : ℤ) : String :=
  if 75 ≤ score then "HOT"
  else if 55 ≤ score then "WARM"
  else if 35 ≤ score then "NURTURE"
  else "MONITOR"

/-- The raw (pre-clamp) total of the scorer: the sum of the five groups. -/
def rawTotal (p : PropertyData) (current_year current_month : ℤ) : ℤ :=
  gapPoints (financials_of p current_year).gap_percent +
  roiPoints (financials_of p current_year).roi +
  motivationPoints p.distress_signals (p.ownership_years.getD 5) (p.equity_percent.getD 0) +
  urgencyPoints (p.days_on_market.getD 0) (p.price_reductions.getD 0) current_month +
  contactPoints p

theorem score_eq_rawTotal (p : PropertyData) (y m : ℤ) :
    (calculate_ai_priority_score p y m).score = min 100 (rawTotal p y m) := by
  simp only [calculate_ai_priority_score, rawTotal, gapPoints, roiPoints,
    motivationPoints, urgencyPoints, contactPoints, applyChain_score,
    firedPoints, decide_eq_true_eq]
  ring_nf

theorem sumPoints_factors_eq (p : PropertyData) (y m : ℤ) :
    sumPoints (calculate_ai_priority_score p y m).factors = rawTotal p y m := by
  simp only [calculate_ai_priority_score, applyChain_factors, List.nil_append]
  simp only [sumPoints_append, sumPoints_firedFactors, firedPoints,
    decide_eq_true_eq]
  simp only [rawTotal, gapPoints, roiPoints, motivationPoints, urgencyPoints,
    contactPoints]
  ring_nf

theorem catPoints_profit_eq (p : PropertyData) (y m : ℤ) :
    catPoints "profit" (calculate_ai_priority_score p y m).factors =
      gapPoints (financials_of p y).gap_percent +
      roiPoints (financials_of p y).roi := by
  simp only [calculate_ai_priority_score, gapPoints, roiPoints,
    applyChain_factors, catPoints_append, catPoints_firedFactors,
    firedPoints, decide_eq_true_eq]
  simp [catPoints, sumPoints]

theorem catPoints_motivation_eq (p : PropertyData) (y m : ℤ) :
    catPoints "motivation" (calculate_ai_priority_score p y m).factors =
      motivationPoints p.distress_signals
        (p.ownership_years.getD 5) (p.equity_percent.getD 0) := by
  simp only [calculate_ai_priority_score, motivationPoints,
    applyChain_factors, catPoints_append, catPoints_firedFactors,
    firedPoints, decide_eq_true_eq]
  simp [catPoints, sumPoints]

theorem factor_points_pos (p : PropertyData) (y m : ℤ) :
    ∀ f ∈ (calculate_ai_priority_score p y m).factors, 0 < f.points := by
  simp only [calculate_ai_priority_score, applyChain_factors, List.nil_append,
    List.forall_mem_append]
  repeat' apply And.intro
  all_goals
    apply firedFactors_points_pos
    intro r hr
    fin_cases hr <;> norm_num

theorem tier_eq (p : PropertyData) (y m : ℤ) :
    (calculate_ai_priority_score p y m).tier =
      tierOf (calculate_ai_priority_score p y m).score := by
  simp only [calculate_ai_priority_score, tierOf, applyChain_score]

theorem itePointsNonneg {c : Prop} [Decidable c] {a b : ℤ}
    (ha : 0 ≤ a) (hb : 0 ≤ b) : 0 ≤ if c then a else b := by
  split_ifs <;> assumption

theorem rawTotal_nonneg (p : PropertyData) (y m : ℤ) : 0 ≤ rawTotal p y m := by
  unfold rawTotal gapPoints roiPoints motivationPoints urgencyPoints contactPoints
  repeat' first
    | apply add_nonneg
    | apply itePointsNonneg
    | norm_num

theorem gapPoints_mono {x y : ℚ} (h : x ≤ y) : gapPoints x ≤ gapPoints y := by
  unfold gapPoints
  split_ifs <;> linarith

theorem roiPoints_mono {x y : ℚ} (h : x ≤ y) : roiPoints x ≤ roiPoints y := by
  unfold roiPoints
  split_ifs <;> linarith

/-- C4: for every property record (and every injected clock year/month)
the total score is an integer in [0, 100], the tier is determined from the
clamped total by the thresholds ≥75 HOT, ≥55 WARM, ≥35 NURTURE, else
MONITOR, and in particular a score of 80 yields the HOT tier. -/
theorem c4_score_range_and_tier (p : PropertyData) (y m : ℤ) :
    0 ≤ (calculate_ai_priority_score p y m).score ∧
    (calculate_ai_priority_score p y m).score ≤ 100 ∧
    (calculate_ai_priority_score p y m).tier =
      tierOf (calculate_ai_priority_score p y m).score ∧
    ((calculate_ai_priority_score p y m).score = 80 →
      (calculate_ai_priority_score p y m).tier = "HOT") := by
  refine ⟨?_, ?_, tier_eq p y m, ?_⟩
  · rw [score_eq_rawTotal]
    exact le_min (by norm_num) (rawTotal_nonneg p y m)
  · rw [score_eq_rawTotal]
    exact min_le_left _ _
  · intro h80
    rw [tier_eq p y m, h80]
    norm_num [tierOf]

/-- C10: the score of every result equals `min 100` of the sum of the
point contributions recorded in its factors list (the factors list exactly
accounts for the pre-clamp total), and every recorded point contribution
is positive. -/
theorem c10_factors_account_for_score (p : PropertyData) (y m : ℤ) :
    (calculate_ai_priority_score p y m).score =
      min 100 (sumPoints (calculate_ai_priority_score p y m).factors) ∧
    ∀ f ∈ (calculate_ai_priority_score p y m).factors, 0 < f.points := by
  refine ⟨?_, factor_points_pos p y m⟩
  rw [score_eq_rawTotal, sumPoints_factors_eq]

/-- The seller-motivation point table exactly as claim C2 states it
(written from the claim's words, for comparison against the code). -/
def claimedMotivationPoints (sigs : List String)
    (ownership_years equity_percent : ℚ) : ℤ :=
  (if "Foreclosure" ∈ sigs then 15 else 0) +
  (if "Pre-Foreclosure" ∈ sigs then 12 else 0) +
  (if "Probate/Estate" ∈ sigs then 12 else 0) +
  (if "Tax Lien" ∈ sigs then 10 else 0) +
  (if "Divorce" ∈ sigs then 10 else 0) +
  (if "Vacant" ∈ sigs then 8 else 0) +
  (if "Tired Landlord" ∈ sigs then 8 else 0) +
  (if "Absentee Owner" ∈ sigs then 6 else 0) +
  (if 15 ≤ ownership_years then 5 else 0) +
  (if 70 ≤ equity_percent then 6 else 0) +
  (if 95 ≤ equity_percent then 5 else 0) +
  (if 5 ≤ ((sigs.filter (fun s => s ≠ "")).length : ℤ) then 8
   else if 3 ≤ ((sigs.filter (fun s => s ≠ "")).length : ℤ) then 5 else 0)

/-- A record carrying only the `Code Violations` distress signal. -/
def pCodeViolations : PropertyData := { distress_signals := ["Code Violations"] }

/-- C2 counterexample: on a record whose only signal is `Code Violations`
the code awards 7 motivation points, while the claim's table (which lists
no such rule) awards 0 — so the claimed table is not exhaustive. -/
theorem c2_counterexample :
    catPoints "motivation"
        (calculate_ai_priority_score pCodeViolations 2025 6).factors = 7 ∧
    claimedMotivationPoints ["Code Violations"] 5 0 = 0 := by
  constructor
  · rw [catPoints_motivation_eq]
    decide
  · decide

/-- C2 amended: the motivation contributions are exactly those of the
code's table, which additionally contains `Code Violations` +7 and a
50–70% equity bracket +4 (the 70% rule's `elif`): for every record the
motivation-category points of the result equal the closed formula
`motivationPoints`. -/
theorem c2_amended_motivation_table (p : PropertyData) (y m : ℤ) :
    catPoints "motivation" (calculate_ai_priority_score p y m).factors =
      motivationPoints p.distress_signals
        (p.ownership_years.getD 5) (p.equity_percent.getD 0) :=
  catPoints_motivation_eq p y m

/-- A record with exactly the three signals Foreclosure, Pre-Foreclosure
and Probate/Estate, priced high enough that no profit rule fires. -/
def pThreeSignals : PropertyData :=
  { list_price := some 1000000
    distress_signals := ["Foreclosure", "Pre-Foreclosure", "Probate/Estate"] }

/-- C1 counterexample: on `pThreeSignals` the motivation contributions sum
to 44 and the total score is 44 — all 44 motivation points reach the
total, which exceeds the claimed 35-point bucket cap: no per-bucket clamp
exists, only the global `min 100`. -/
theorem c1_counterexample :
    catPoints "motivation"
        (calculate_ai_priority_score pThreeSignals 2025 6).factors = 44 ∧
    (calculate_ai_priority_score pThreeSignals 2025 6).score = 44 ∧
    35 < (calculate_ai_priority_score pThreeSignals 2025 6).score := by
  have hfin : financials_of pThreeSignals 2025 =
      ⟨742500, 97500, -(515/24), -(10700/2507), -53500, 1253500⟩ := by
    norm_num [financials_of, effectiveArv, estimatedRepairs, propertyAge,
      repairPerSqft, pyTrunc, pThreeSignals]
  have hmot : catPoints "motivation"
      (calculate_ai_priority_score pThreeSignals 2025 6).factors = 44 := by
    rw [catPoints_motivation_eq]
    decide
  have hscore : (calculate_ai_priority_score pThreeSignals 2025 6).score = 44 := by
    rw [score_eq_rawTotal]
    rw [rawTotal, hfin]
    norm_num [gapPoints, roiPoints, urgencyPoints, contactPoints, pThreeSignals]
    decide
  exact ⟨hmot, hscore, by rw [hscore]; norm_num⟩

/-- C1 amended: with signals exactly {Foreclosure, Pre-Foreclosure,
Probate/Estate} and no other motivation rule firing (ownership < 15
years, equity < 50%), the raw motivation contributions sum to
15+12+12+5 = 44; these 44 points are NOT clamped to a 35-point bucket —
the whole sum enters the total, which is clamped only at 100. -/
theorem c1_amended (p : PropertyData) (y m : ℤ)
    (hs : p.distress_signals = ["Foreclosure", "Pre-Foreclosure", "Probate/Estate"])
    (how : p.ownership_years.getD 5 < 15)
    (he : p.equity_percent.getD 0 < 50) :
    catPoints "motivation" (calculate_ai_priority_score p y m).factors = 44 ∧
    (calculate_ai_priority_score p y m).score =
      min 100 (sumPoints (calculate_ai_priority_score p y m).factors) := by
  constructor
  · rw [catPoints_motivation_eq, hs]
    have h1 : ¬ (15 : ℚ) ≤ p.ownership_years.getD 5 := not_le.mpr how
    have h2 : ¬ (50 : ℚ) ≤ p.equity_percent.getD 0 := not_le.mpr he
    have h3 : ¬ (70 : ℚ) ≤ p.equity_percent.getD 0 := not_le.mpr (by linarith)
    have h4 : ¬ (95 : ℚ) ≤ p.equity_percent.getD 0 := not_le.mpr (by linarith)
    simp [motivationPoints, h1, h2, h3, h4]
  · rw [score_eq_rawTotal, sumPoints_factors_eq]

/-- C1 amended, witness at a concrete record. -/
theorem c1_amended_witness :
    pThreeSignals.distress_signals =
        ["Foreclosure", "Pre-Foreclosure", "Probate/Estate"] ∧
    pThreeSignals.ownership_years.getD 5 < 15 ∧
    pThreeSignals.equity_percent.getD 0 < 50 ∧
    (catPoints "motivation"
        (calculate_ai_priority_score pThreeSignals 2025 6).factors = 44 ∧
      (calculate_ai_priority_score pThreeSignals 2025 6).score =
        min 100 (sumPoints (calculate_ai_priority_score pThreeSignals 2025 6).factors)) :=
  ⟨rfl, by norm_num [pThreeSignals], by norm_num [pThreeSignals],
    c1_amended pThreeSignals 2025 6 rfl (by norm_num [pThreeSignals])
      (by norm_num [pThreeSignals])⟩

/-- The boundary record of C9: construction year at the age sentinel
(≤ 1800), no distress signals, no contact flags, every other field
missing (so at its documented default). -/
def pAgeSentinel : PropertyData := { year_built := some 1700 }

/-- C9: the boundary record (age sentinel, no signals, no contact info,
all other inputs defaulted) scores below 35 for every injected clock and
is classified MONITOR. -/
theorem c9_boundary_monitor (y m : ℤ) :
    (calculate_ai_priority_score pAgeSentinel y m).score < 35 ∧
    (calculate_ai_priority_score pAgeSentinel y m).tier = "MONITOR" := by
  have hfin : financials_of pAgeSentinel y =
      ⟨-67500, 67500, 0, -100, -67500, 67500⟩ := by
    norm_num [financials_of, effectiveArv, estimatedRepairs, propertyAge,
      repairPerSqft, pyTrunc, pAgeSentinel]
  have hraw : rawTotal pAgeSentinel y m =
      10 + (if m ∈ ([11, 12, 1, 2] : List ℤ) then 3 else 0) := by
    rw [rawTotal, hfin]
    norm_num [gapPoints, roiPoints, motivationPoints, urgencyPoints,
      contactPoints, pAgeSentinel]
  have hw : (if m ∈ ([11, 12, 1, 2] : List ℤ) then (3 : ℤ) else 0) ≤ 3 ∧
      (0 : ℤ) ≤ (if m ∈ ([11, 12, 1, 2] : List ℤ) then (3 : ℤ) else 0) := by
    split_ifs <;> norm_num
  have hs : (calculate_ai_priority_score pAgeSentinel y m).score =
      10 + (if m ∈ ([11, 12, 1, 2] : List ℤ) then 3 else 0) := by
    rw [score_eq_rawTotal, hraw, min_eq_right (by linarith [hw.1])]
  constructor
  · rw [hs]; linarith [hw.1]
  · rw [tier_eq, hs, tierOf]
    rw [if_neg (by linarith [hw.1]), if_neg (by linarith [hw.1]),
      if_neg (by linarith [hw.1])]

/-- C6: the quick deal analyzer at purchase 100000, ARV 150000, repairs
30000, 4 holding months yields holding 6000, selling 13500, total
investment 149500, net profit 500, ROI = 100/299 ≈ 0.33%, max offer
75000, and the "PASS" verdict. -/
theorem c6_deal_calculator :
    estimate_deal_economics 100000 150000 30000 4 =
      ⟨6000, 13500, 149500, 500, 100 / 299, 75000,
        "❌ PASS - Numbers don't work"⟩ ∧
    |(100 : ℚ) / 299 - 33 / 100| < 1 / 200 := by
  constructor
  · norm_num [estimate_deal_economics]
  · rw [abs_lt]
    constructor <;> norm_num

/-- The financial analysis exactly as claim C5 states it (written from
the claim's words): ARV defaults to `listPrice × 1.2` (no integer
truncation) when absent, gap percent 0 when ARV is 0, ROI 0 when the
total investment is nonpositive. -/
def claimedFinancials (p : PropertyData) (current_year : ℤ) : FinancialAnalysis :=
  let list_price := p.list_price.getD 0
  let arv := p.arv.getD (list_price * (6 / 5))
  let estimated_repairs := estimatedRepairs p current_year
  let max_offer := arv * (7 / 10) - estimated_repairs
  let gap := max_offer - list_price
  let gap_percent := if arv = 0 then 0 else gap / arv * 100
  let total_investment := list_price + estimated_repairs + arv * (13 / 100)
  let net_profit := arv - total_investment
  let roi := if total_investment ≤ 0 then 0 else net_profit / total_investment * 100
  ⟨max_offer, estimated_repairs, gap_percent, roi, net_profit, total_investment⟩

/-- A record whose list price is not a multiple of 5, so that
`list_price * 1.2` is fractional and `int()` truncates it. -/
def pOddPrice : PropertyData := { list_price := some 100001 }

/-- C5 counterexample: with list price 100001 and ARV absent, the code's
defaulted ARV is `int(100001 * 1.2) = 120001`, not `120001.2`; the
surfaced max offer is `120001 × 0.7 − 97500`, which differs from the
claimed `(100001 × 1.2) × 0.7 − 97500`. -/
theorem c5_counterexample :
    (calculate_ai_priority_score pOddPrice 2025 6).financials.max_offer =
      -(134993 / 10) ∧
    (claimedFinancials pOddPrice 2025).max_offer = -(337479 / 25) ∧
    (calculate_ai_priority_score pOddPrice 2025 6).financials.max_offer ≠
      (claimedFinancials pOddPrice 2025).max_offer := by
  refine ⟨?_, ?_, ?_⟩
  · show (financials_of pOddPrice 2025).max_offer = _
    norm_num [financials_of, effectiveArv, estimatedRepairs, propertyAge,
      repairPerSqft, pyTrunc, pOddPrice]
  · norm_num [claimedFinancials, estimatedRepairs, propertyAge,
      repairPerSqft, pOddPrice]
  · intro h
    rw [show (calculate_ai_priority_score pOddPrice 2025 6).financials =
        financials_of pOddPrice 2025 from rfl] at h
    rw [show (claimedFinancials pOddPrice 2025).max_offer =
        -(337479 / 25) from by
      norm_num [claimedFinancials, estimatedRepairs, propertyAge,
        repairPerSqft, pOddPrice]] at h
    rw [show (financials_of pOddPrice 2025).max_offer = -(134993 / 10) from by
      norm_num [financials_of, effectiveArv, estimatedRepairs, propertyAge,
        repairPerSqft, pyTrunc, pOddPrice]] at h
    norm_num at h

/-- The financial analysis as claim C5 amended: the defaulted ARV is the
integer truncation `int(listPrice × 1.2)` (also used when ARV is present
but zero); all other formulas and guards as claimed. -/
def amendedFinancials (p : PropertyData) (current_year : ℤ) : FinancialAnalysis :=
  let list_price := p.list_price.getD 0
  let a0 := p.arv.getD 0
  let arv : ℚ := if a0 = 0 then ((pyTrunc (list_price * (6 / 5)) : ℤ) : ℚ) else a0
  let estimated_repairs := estimatedRepairs p current_year
  let max_offer := arv * (7 / 10) - estimated_repairs
  let gap := max_offer - list_price
  let gap_percent := if arv ≤ 0 then 0 else gap / arv * 100
  let total_investment := list_price + estimated_repairs + arv * (13 / 100)
  let net_profit := arv - total_investment
  let roi := if total_investment ≤ 0 then 0 else net_profit / total_investment * 100
  ⟨max_offer, estimated_repairs, gap_percent, roi, net_profit, total_investment⟩

/-- C5 amended: for every record, the financials embedded in the scoring
result are exactly those of the amended formulas (ARV default truncated
to an integer; gap percent zero when the effective ARV is nonpositive;
ROI zero when the total investment is nonpositive), surfaced verbatim. -/
theorem c5_amended_financials (p : PropertyData) (y m : ℤ) :
    (calculate_ai_priority_score p y m).financials = amendedFinancials p y := by
  show financials_of p y = amendedFinancials p y
  unfold financials_of amendedFinancials effectiveArv
  simp only
  congr 1
  · split_ifs with h1 h2 h2 <;> first | rfl | linarith
  · split_ifs with h1 h2 h2 <;> first | rfl | linarith

theorem financials_of_eq (p : PropertyData) (y : ℤ) :
    financials_of p y =
      ⟨effectiveArv p * (7 / 10) - estimatedRepairs p y,
        estimatedRepairs p y,
        if 0 < effectiveArv p then
          (effectiveArv p * (7 / 10) - estimatedRepairs p y - p.list_price.getD 0) /
            effectiveArv p * 100
        else 0,
        if 0 < p.list_price.getD 0 + estimatedRepairs p y + effectiveArv p * (13 / 100) then
          (effectiveArv p -
              (p.list_price.getD 0 + estimatedRepairs p y + effectiveArv p * (13 / 100))) /
            (p.list_price.getD 0 + estimatedRepairs p y + effectiveArv p * (13 / 100)) * 100
        else 0,
        effectiveArv p -
          (p.list_price.getD 0 + estimatedRepairs p y + effectiveArv p * (13 / 100)),
        p.list_price.getD 0 + estimatedRepairs p y + effectiveArv p * (13 / 100)⟩ := rfl

/-- A record whose living area is explicitly 0. -/
def pZeroSqft : PropertyData := { sqft := some 0 }

/-- C3 counterexample: `predict_arv` is not total at living area 0 — the
`int(predicted_arv / sqft)` price-per-area computation divides by zero
(modelled as `none`), so the claim that every division in the core is
guarded fails. -/
theorem c3_counterexample : predict_arv pZeroSqft "Detroit" 2025 = none := by
  simp [predict_arv, pZeroSqft]

/-- C3 amended: the scorer's divisions (gap percent, ROI) are guarded —
a nonpositive effective ARV yields gap percent 0 and a nonpositive total
investment yields ROI 0, and the scorer is total (a total function in
this embedding) — but `predict_arv`'s price-per-area division is not
guarded: it succeeds exactly when the effective living area is nonzero. -/
theorem c3_amended_guards (p : PropertyData) (c : String) (y m : ℤ) :
    ((predict_arv p c y).isSome ↔ p.sqft.getD 1500 ≠ 0) ∧
    (effectiveArv p ≤ 0 →
      (calculate_ai_priority_score p y m).financials.gap_percent = 0) ∧
    (p.list_price.getD 0 + estimatedRepairs p y + effectiveArv p * (13 / 100) ≤ 0 →
      (calculate_ai_priority_score p y m).financials.roi = 0) := by
  refine ⟨?_, ?_, ?_⟩
  · by_cases h : p.sqft.getD 1500 = 0 <;> simp [predict_arv, h]
  · intro h
    show (financials_of p y).gap_percent = 0
    rw [financials_of_eq]
    exact if_neg (not_lt.mpr h)
  · intro h
    show (financials_of p y).roi = 0
    rw [financials_of_eq]
    exact if_neg (not_lt.mpr h)

/-- C3 amended, witness: the gap-percent guard fires on the boundary
record (effective ARV 0), `predict_arv` succeeds on it (area defaults to
1500), and the ROI guard fires on the all-zero record (total
investment 0). -/
theorem c3_amended_guards_witness :
    (effectiveArv pAgeSentinel ≤ 0 ∧
      (calculate_ai_priority_score pAgeSentinel 2025 6).financials.gap_percent = 0) ∧
    (pAgeSentinel.sqft.getD 1500 ≠ 0 ∧
      (predict_arv pAgeSentinel "Detroit" 2025).isSome) ∧
    (pZeroSqft.list_price.getD 0 + estimatedRepairs pZeroSqft 2025 +
        effectiveArv pZeroSqft * (13 / 100) ≤ 0 ∧
      (calculate_ai_priority_score pZeroSqft 2025 6).financials.roi = 0) := by
  have h1 : effectiveArv pAgeSentinel ≤ 0 := by
    norm_num [effectiveArv, pAgeSentinel, pyTrunc]
  have h2 : pZeroSqft.list_price.getD 0 + estimatedRepairs pZeroSqft 2025 +
      effectiveArv pZeroSqft * (13 / 100) ≤ 0 := by
    norm_num [pZeroSqft, estimatedRepairs, propertyAge, repairPerSqft,
      effectiveArv, pyTrunc]
  refine ⟨⟨h1, (c3_amended_guards pAgeSentinel "Detroit" 2025 6).2.1 h1⟩,
    ⟨by norm_num [pAgeSentinel], ?_⟩,
    ⟨h2, (c3_amended_guards pZeroSqft "Detroit" 2025 6).2.2 h2⟩⟩
  exact (c3_amended_guards pAgeSentinel "Detroit" 2025 6).1.mpr
    (by norm_num [pAgeSentinel])

/-- The baseline record of C7: 1 sq ft of living area (to make the raw
prediction fractional), bedrooms defaulted to 3, bathrooms exactly 1.5. -/
def pBaseline : PropertyData := { sqft := some 1, baths := some (3 / 2) }

/-- C7 counterexample: on the baseline record with an unknown city key
the point estimate is 108, but the low bound is `int(108 × 0.9) = 97`,
which is not "−10% of the point estimate" (97.2): the bounds are integer
truncations of ±10% of the raw estimate, not exact ±10% values. -/
theorem c7_counterexample :
    (predict_arv pBaseline "Nowhere" 2000).map ArvPrediction.predicted_arv =
      some 108 ∧
    (predict_arv pBaseline "Nowhere" 2000).map ArvPrediction.low_estimate =
      some 97 ∧
    (97 : ℚ) ≠ (9 / 10) * 108 := by
  have hc : cityData "Nowhere" = (150000, 8) := rfl
  refine ⟨?_, ?_, by norm_num⟩ <;>
    norm_num [predict_arv, pBaseline, pyTrunc, hc]

/-- C7 amended: for every record with nonzero effective living area,
`predict_arv` succeeds and returns the integer truncation of
`(baseArv + bedAdjustment + bathAdjustment) × ageMultiplier ×
appreciationFactor` with `baseArv = livingArea × baselinePrice / 1500`,
`bedAdjustment = (bedrooms − 3) × 10000`, `bathAdjustment =
max(0, bathrooms − 1.5) × 7500`, the documented age brackets and
`1 + appreciation/100`; the bounds are the integer truncations of ±10% of
the raw estimate; an unknown city key uses the default (150000, 8.0); and
bedrooms 3 / bathrooms 1.5 give zero adjustments. -/
theorem c7_amended_formula (p : PropertyData) (city : String) (y : ℤ)
    (h : p.sqft.getD 1500 ≠ 0) :
    ∃ r, predict_arv p city y = some r ∧
      (let cd := (MICHIGAN_CITIES city).getD (150000, 8)
       let base_arv := p.sqft.getD 1500 * (cd.1 / 1500)
       let bed_adjustment := (p.beds.getD 3 - 3) * 10000
       let bath_adjustment := max 0 (p.baths.getD 2 - 3 / 2) * 7500
       let age := y - p.year_built.getD 1970
       let am : ℚ := if age ≤ 10 then 23 / 20
         else if age ≤ 25 then 21 / 20
         else if age ≤ 50 then 1
         else 23 / 25
       let af : ℚ := 1 + cd.2 / 100
       let raw := (base_arv + bed_adjustment + bath_adjustment) * am * af
       r.predicted_arv = pyTrunc raw ∧
       r.low_estimate = pyTrunc (raw * (9 / 10)) ∧
       r.high_estimate = pyTrunc (raw * (11 / 10)) ∧
       r.factors.base_value = pyTrunc base_arv ∧
       r.factors.bed_adjustment = bed_adjustment ∧
       r.factors.bath_adjustment = bath_adjustment ∧
       r.factors.age_multiplier = am ∧
       r.factors.market_factor = af ∧
       (p.beds.getD 3 = 3 → r.factors.bed_adjustment = 0) ∧
       (p.baths.getD 2 = 3 / 2 → r.factors.bath_adjustment = 0)) := by
  simp only [predict_arv, cityData]
  rw [if_neg h]
  refine ⟨_, rfl, ?_⟩
  refine ⟨rfl, rfl, rfl, rfl, rfl, rfl, rfl, rfl, ?_, ?_⟩
  · intro heq
    rw [heq]
    norm_num
  · intro heq
    rw [heq]
    norm_num

/-- C7 amended, witness at the baseline record with an unknown city. -/
theorem c7_amended_formula_witness :
    pBaseline.sqft.getD 1500 ≠ 0 ∧
    (∃ r, predict_arv pBaseline "Nowhere" 2000 = some r ∧
      (let cd := (MICHIGAN_CITIES "Nowhere").getD (150000, 8)
       let base_arv := pBaseline.sqft.getD 1500 * (cd.1 / 1500)
       let bed_adjustment := (pBaseline.beds.getD 3 - 3) * 10000
       let bath_adjustment := max 0 (pBaseline.baths.getD 2 - 3 / 2) * 7500
       let age := 2000 - pBaseline.year_built.getD 1970
       let am : ℚ := if age ≤ 10 then 23 / 20
         else if age ≤ 25 then 21 / 20
         else if age ≤ 50 then 1
         else 23 / 25
       let af : ℚ := 1 + cd.2 / 100
       let raw := (base_arv + bed_adjustment + bath_adjustment) * am * af
       r.predicted_arv = pyTrunc raw ∧
       r.low_estimate = pyTrunc (raw * (9 / 10)) ∧
       r.high_estimate = pyTrunc (raw * (11 / 10)) ∧
       r.factors.base_value = pyTrunc base_arv ∧
       r.factors.bed_adjustment = bed_adjustment ∧
       r.factors.bath_adjustment = bath_adjustment ∧
       r.factors.age_multiplier = am ∧
       r.factors.market_factor = af ∧
       (pBaseline.beds.getD 3 = 3 → r.factors.bed_adjustment = 0) ∧
       (pBaseline.baths.getD 2 = 3 / 2 → r.factors.bath_adjustment = 0))) :=
  ⟨by norm_num [pBaseline],
    c7_amended_formula pBaseline "Nowhere" 2000 (by norm_num [pBaseline])⟩

/-- A high-priced (less negative) record with explicit positive ARV and
zero repair area: total investment 5 > 0, ROI enormous. -/
def pNegHigh : PropertyData :=
  { list_price := some (-125), arv := some 1000, sqft := some 0 }

/-- The same record with a lower list price: total investment −5 ≤ 0, so
the ROI guard yields 0 and the ROI bucket awards nothing. -/
def pNegLow : PropertyData :=
  { list_price := some (-135), arv := some 1000, sqft := some 0 }

/-- C8 counterexample: lowering the list price from −125 to −135 (all
else equal, fixed explicit ARV 1000) strictly increases the gap percent
(83.5 > 82.5) yet strictly decreases the profit-potential subtotal
(25 < 40): the total investment crosses 0, the ROI guard returns 0, and
the 15 ROI-bucket points are lost. -/
theorem c8_counterexample :
    (calculate_ai_priority_score pNegHigh 2025 6).financials.gap_percent <
      (calculate_ai_priority_score pNegLow 2025 6).financials.gap_percent ∧
    catPoints "profit" (calculate_ai_priority_score pNegLow 2025 6).factors <
      catPoints "profit" (calculate_ai_priority_score pNegHigh 2025 6).factors := by
  have hfinH : financials_of pNegHigh 2025 = ⟨700, 0, 165 / 2, 19900, 995, 5⟩ := by
    norm_num [financials_of, effectiveArv, estimatedRepairs, propertyAge,
      repairPerSqft, pyTrunc, pNegHigh]
  have hfinL : financials_of pNegLow 2025 = ⟨700, 0, 167 / 2, 0, 1005, -5⟩ := by
    norm_num [financials_of, effectiveArv, estimatedRepairs, propertyAge,
      repairPerSqft, pyTrunc, pNegLow]
  constructor
  · show (financials_of pNegHigh 2025).gap_percent <
      (financials_of pNegLow 2025).gap_percent
    rw [hfinH, hfinL]
    norm_num
  · rw [catPoints_profit_eq, catPoints_profit_eq, hfinH, hfinL]
    norm_num [gapPoints, roiPoints]

theorem repairPerSqft_nonneg (age : ℤ) : 0 ≤ repairPerSqft age := by
  unfold repairPerSqft
  split_ifs <;> norm_num

/-- C8 amended: with a nonnegative lower list price, a nonnegative living
area and a fixed explicit positive ARV (so the total investment stays
positive), lowering the list price never decreases the profit-potential
subtotal (gap-percent bucket plus ROI bucket). -/
theorem c8_amended_monotone (p : PropertyData) (lp lp' A : ℚ) (y m : ℤ)
    (hA : p.arv = some A) (hApos : 0 < A)
    (hsq : 0 ≤ p.sqft.getD 1500)
    (h0 : 0 ≤ lp') (hle : lp' ≤ lp) :
    catPoints "profit"
        (calculate_ai_priority_score { p with list_price := some lp } y m).factors ≤
      catPoints "profit"
        (calculate_ai_priority_score { p with list_price := some lp' } y m).factors := by
  rw [catPoints_profit_eq, catPoints_profit_eq]
  set r := estimatedRepairs p y with hrdef
  have hrep : 0 ≤ r := mul_nonneg hsq (repairPerSqft_nonneg _)
  have harvq : effectiveArv { p with list_price := some lp } = A := by
    unfold effectiveArv
    show (if (p.arv.getD 0) = 0 then _ else p.arv.getD 0) = A
    rw [hA]
    simp [hApos.ne']
  have harvq' : effectiveArv { p with list_price := some lp' } = A := by
    unfold effectiveArv
    show (if (p.arv.getD 0) = 0 then _ else p.arv.getD 0) = A
    rw [hA]
    simp [hApos.ne']
  have hrq : estimatedRepairs { p with list_price := some lp } y = r := rfl
  have hrq' : estimatedRepairs { p with list_price := some lp' } y = r := rfl
  have hti' : 0 < lp' + r + A * (13 / 100) := by
    have hx : 0 < A * (13 / 100) := mul_pos hApos (by norm_num)
    linarith
  have hti : 0 < lp + r + A * (13 / 100) := by linarith
  have hgapq : (financials_of { p with list_price := some lp } y).gap_percent =
      (A * (7 / 10) - r - lp) / A * 100 := by
    rw [financials_of_eq]
    show (if 0 < effectiveArv { p with list_price := some lp } then
        (effectiveArv { p with list_price := some lp } * (7 / 10) -
            estimatedRepairs { p with list_price := some lp } y -
            ({ p with list_price := some lp } : PropertyData).list_price.getD 0) /
          effectiveArv { p with list_price := some lp } * 100
      else 0) = _
    rw [harvq, hrq, if_pos hApos]
    norm_num
  have hgapq' : (financials_of { p with list_price := some lp' } y).gap_percent =
      (A * (7 / 10) - r - lp') / A * 100 := by
    rw [financials_of_eq]
    show (if 0 < effectiveArv { p with list_price := some lp' } then
        (effectiveArv { p with list_price := some lp' } * (7 / 10) -
            estimatedRepairs { p with list_price := some lp' } y -
            ({ p with list_price := some lp' } : PropertyData).list_price.getD 0) /
          effectiveArv { p with list_price := some lp' } * 100
      else 0) = _
    rw [harvq', hrq', if_pos hApos]
    norm_num
  have hroiq : (financials_of { p with list_price := some lp } y).roi =
      (A - (lp + r + A * (13 / 100))) / (lp + r + A * (13 / 100)) * 100 := by
    rw [financials_of_eq]
    show (if 0 < ({ p with list_price := some lp } : PropertyData).list_price.getD 0 +
          estimatedRepairs { p with list_price := some lp } y +
          effectiveArv { p with list_price := some lp } * (13 / 100) then
        (effectiveArv { p with list_price := some lp } -
            (({ p with list_price := some lp } : PropertyData).list_price.getD 0 +
              estimatedRepairs { p with list_price := some lp } y +
              effectiveArv { p with list_price := some lp } * (13 / 100))) /
          (({ p with list_price := some lp } : PropertyData).list_price.getD 0 +
            estimatedRepairs { p with list_price := some lp } y +
            effectiveArv { p with list_price := some lp } * (13 / 100)) * 100
      else 0) = _
    rw [harvq, hrq]
    norm_num [if_pos hti]
  have hroiq' : (financials_of { p with list_price := some lp' } y).roi =
      (A - (lp' + r + A * (13 / 100))) / (lp' + r + A * (13 / 100)) * 100 := by
    rw [financials_of_eq]
    show (if 0 < ({ p with list_price := some lp' } : PropertyData).list_price.getD 0 +
          estimatedRepairs { p with list_price := some lp' } y +
          effectiveArv { p with list_price := some lp' } * (13 / 100) then
        (effectiveArv { p with list_price := some lp' } -
            (({ p with list_price := some lp' } : PropertyData).list_price.getD 0 +
              estimatedRepairs { p with list_price := some lp' } y +
              effectiveArv { p with list_price := some lp' } * (13 / 100))) /
          (({ p with list_price := some lp' } : PropertyData).list_price.getD 0 +
            estimatedRepairs { p with list_price := some lp' } y +
            effectiveArv { p with list_price := some lp' } * (13 / 100)) * 100
      else 0) = _
    rw [harvq', hrq']
    norm_num [if_pos hti']
  rw [hgapq, hgapq', hroiq, hroiq']
  have hgaple : (A * (7 / 10) - r - lp) / A * 100 ≤
      (A * (7 / 10) - r - lp') / A * 100 := by
    gcongr
  have hroile : (A - (lp + r + A * (13 / 100))) / (lp + r + A * (13 / 100)) * 100 ≤
      (A - (lp' + r + A * (13 / 100))) / (lp' + r + A * (13 / 100)) * 100 := by
    have e1 : (A - (lp + r + A * (13 / 100))) / (lp + r + A * (13 / 100)) * 100 =
        A / (lp + r + A * (13 / 100)) * 100 - 100 := by
      rw [sub_div, div_self hti.ne']
      ring
    have e2 : (A - (lp' + r + A * (13 / 100))) / (lp' + r + A * (13 / 100)) * 100 =
        A / (lp' + r + A * (13 / 100)) * 100 - 100 := by
      rw [sub_div, div_self hti'.ne']
      ring
    rw [e1, e2]
    have hdiv : A / (lp + r + A * (13 / 100)) ≤ A / (lp' + r + A * (13 / 100)) := by
      gcongr
    linarith
  exact add_le_add (gapPoints_mono hgaple) (roiPoints_mono hroile)

/-- C8 amended, witness: ARV 150000, repairs on 1500 sq ft, list price
lowered from 100000 to 80000. -/
theorem c8_amended_monotone_witness :
    ({ arv := some 150000, sqft := some 1500 } : PropertyData).arv = some 150000 ∧
    (0 : ℚ) < 150000 ∧
    (0 : ℚ) ≤ ({ arv := some 150000, sqft := some 1500 } : PropertyData).sqft.getD 1500 ∧
    (0 : ℚ) ≤ 80000 ∧ (80000 : ℚ) ≤ 100000 ∧
    catPoints "profit"
        (calculate_ai_priority_score
          { ({ arv := some 150000, sqft := some 1500 } : PropertyData) with
            list_price := some 100000 } 2025 6).factors ≤
      catPoints "profit"
        (calculate_ai_priority_score
          { ({ arv := some 150000, sqft := some 1500 } : PropertyData) with
            list_price := some 80000 } 2025 6).factors :=
  ⟨rfl, by norm_num, by norm_num, by norm_num, by norm_num,
    c8_amended_monotone { arv := some 150000, sqft := some 1500 }
      100000 80000 150000 2025 6 rfl (by norm_num) (by norm_num)
      (by norm_num) (by norm_num)⟩
